import Mathlib

/- Shallow embedding of the Parserator Python SDK (packages/sdk-python):
   the option model of types.py (LeanLLMRuntimeOptions, ParseOptions, BatchOptions),
   the client logic of client.py (option merging, payload resolution, error raising,
   batch scheduling), the exception constructor signatures of errors.py, and the
   local validators of utils.py.  Machine integers are modelled as Int, Python
   floats as Rat, dictionaries as association lists.  Python constructors that can
   raise are modelled as functions into Except PyErr. -/

inductive PyErr
  | valueError (msg : String)
  | typeError (msg : String)
deriving DecidableEq, Repr

inductive ValidationType
  | strict
  | lenient
deriving DecidableEq, Repr

/-- Explicit-field tracking record for LeanLLMRuntimeOptions, mirroring the
frozenset stored in the _explicit_fields slot of types.py. -/
structure LExplicit where
  disabled : Bool
  allow_optional_fields : Bool
  default_confidence : Bool
  max_input_characters : Bool
  plan_confidence_gate : Bool
  max_invocations_per_parse : Bool
  max_tokens_per_parse : Bool
deriving DecidableEq, Repr

def LExplicit.empty : LExplicit := ⟨false, false, false, false, false, false, false⟩

def LExplicit.all : LExplicit := ⟨true, true, true, true, true, true, true⟩

def LExplicit.isEmpty (e : LExplicit) : Bool :=
  !(e.disabled || e.allow_optional_fields || e.default_confidence ||
    e.max_input_characters || e.plan_confidence_gate ||
    e.max_invocations_per_parse || e.max_tokens_per_parse)

/-- Runtime controls for the lean LLM fallback resolver (types.py,
LeanLLMRuntimeOptions). -/
structure LeanLLMRuntimeOptions where
  disabled : Option Bool
  allow_optional_fields : Option Bool
  default_confidence : Option ℚ
  max_input_characters : Option ℤ
  plan_confidence_gate : Option ℚ
  max_invocations_per_parse : Option ℤ
  max_tokens_per_parse : Option ℤ
  explicit : LExplicit
deriving DecidableEq, Repr

/-- Range check for an optionally provided confidence value: mirrors the body of
LeanLLMRuntimeOptions.__init__ for default_confidence and plan_confidence_gate.
The outer Option models the _UNSET sentinel (none = argument not supplied). -/
def checkUnit01 (name : String) : Option (Option ℚ) → Except PyErr (Option ℚ)
  | none => .ok none
  | some none => .ok none
  | some (some q) =>
    if q < 0 ∨ 1 < q then .error (.valueError (name ++ " must be within range."))
    else .ok (some q)

/-- Non-negativity check for an optionally provided integer: mirrors the checks
for max_input_characters, max_invocations_per_parse and max_tokens_per_parse. -/
def checkNonneg (name : String) : Option (Option ℤ) → Except PyErr (Option ℤ)
  | none => .ok none
  | some none => .ok none
  | some (some n) =>
    if n < 0 then .error (.valueError (name ++ " must be non-negative."))
    else .ok (some n)

/-- LeanLLMRuntimeOptions.__init__ of types.py at the typed level.  An outer none
models an argument left at the _UNSET sentinel; each supplied argument joins the
explicit-field set.  Boolean arguments need no check at the typed level; the
numeric range checks are performed in source order. -/
def leanInit (disabled allow_opt : Option (Option Bool)) (dc0 : Option (Option ℚ))
    (mic0 : Option (Option ℤ)) (pcg0 : Option (Option ℚ))
    (mip0 mtp0 : Option (Option ℤ)) : Except PyErr LeanLLMRuntimeOptions :=
  match checkUnit01 "default_confidence" dc0 with
  | .error e => .error e
  | .ok dcv =>
    match checkNonneg "max_input_characters" mic0 with
    | .error e => .error e
    | .ok micv =>
      match checkUnit01 "plan_confidence_gate" pcg0 with
      | .error e => .error e
      | .ok pcgv =>
        match checkNonneg "max_invocations_per_parse" mip0 with
        | .error e => .error e
        | .ok mipv =>
          match checkNonneg "max_tokens_per_parse" mtp0 with
          | .error e => .error e
          | .ok mtpv =>
            .ok { disabled := disabled.join
                , allow_optional_fields := allow_opt.join
                , default_confidence := dcv
                , max_input_characters := micv
                , plan_confidence_gate := pcgv
                , max_invocations_per_parse := mipv
                , max_tokens_per_parse := mtpv
                , explicit := ⟨disabled.isSome, allow_opt.isSome, dc0.isSome,
                               mic0.isSome, pcg0.isSome, mip0.isSome, mtp0.isSome⟩ }

/-- LeanLLMRuntimeOptions constructed with every argument supplied, as done by
the dictionary expansion in _merge_lean_runtime_options of types.py. -/
def leanInitAll (d a : Option Bool) (dc : Option ℚ) (mic : Option ℤ) (pcg : Option ℚ)
    (mip mtp : Option ℤ) : Except PyErr LeanLLMRuntimeOptions :=
  leanInit (some d) (some a) (some dc) (some mic) (some pcg) (some mip) (some mtp)

/-- Conditional argument passing used by LeanLLMRuntimeOptions.copy: a field is
included in the constructor payload only when the condition holds. -/
def provideIf (c : Bool) {α : Type} (v : α) : Option α := if c then some v else none

/-- LeanLLMRuntimeOptions.copy of types.py: rebuild through the constructor,
passing each field whose value is non-None or which was explicitly set. -/
def leanCopy (o : LeanLLMRuntimeOptions) : Except PyErr LeanLLMRuntimeOptions :=
  leanInit
    (provideIf (o.disabled.isSome || o.explicit.disabled) o.disabled)
    (provideIf (o.allow_optional_fields.isSome || o.explicit.allow_optional_fields) o.allow_optional_fields)
    (provideIf (o.default_confidence.isSome || o.explicit.default_confidence) o.default_confidence)
    (provideIf (o.max_input_characters.isSome || o.explicit.max_input_characters) o.max_input_characters)
    (provideIf (o.plan_confidence_gate.isSome || o.explicit.plan_confidence_gate) o.plan_confidence_gate)
    (provideIf (o.max_invocations_per_parse.isSome || o.explicit.max_invocations_per_parse) o.max_invocations_per_parse)
    (provideIf (o.max_tokens_per_parse.isSome || o.explicit.max_tokens_per_parse) o.max_tokens_per_parse)

/-- _merge_lean_runtime_options of types.py: override None wins as None, a
missing base yields a copy of the override, an override with an empty
explicit-field set keeps the base, and otherwise every field is rebuilt from the
base with the explicitly set override fields substituted. -/
def mergeLeanRuntime : Option LeanLLMRuntimeOptions → Option LeanLLMRuntimeOptions →
    Except PyErr (Option LeanLLMRuntimeOptions)
  | _, none => .ok none
  | none, some ov =>
    match leanCopy ov with
    | .error e => .error e
    | .ok c => .ok (some c)
  | some b, some ov =>
    if ov.explicit.isEmpty then .ok (some b)
    else
      match leanInitAll
        (if ov.explicit.disabled then ov.disabled else b.disabled)
        (if ov.explicit.allow_optional_fields then ov.allow_optional_fields else b.allow_optional_fields)
        (if ov.explicit.default_confidence then ov.default_confidence else b.default_confidence)
        (if ov.explicit.max_input_characters then ov.max_input_characters else b.max_input_characters)
        (if ov.explicit.plan_confidence_gate then ov.plan_confidence_gate else b.plan_confidence_gate)
        (if ov.explicit.max_invocations_per_parse then ov.max_invocations_per_parse else b.max_invocations_per_parse)
        (if ov.explicit.max_tokens_per_parse then ov.max_tokens_per_parse else b.max_tokens_per_parse) with
      | .error e => .error e
      | .ok m => .ok (some m)

/-- Explicit-field tracking record for ParseOptions, mirroring the frozenset
stored in the _explicit_fields slot of types.py. -/
structure PExplicit where
  validation : Bool
  locale : Bool
  timezone : Bool
  max_retries : Bool
  lean_llm : Bool
deriving DecidableEq, Repr

def PExplicit.empty : PExplicit := ⟨false, false, false, false, false⟩

def PExplicit.all : PExplicit := ⟨true, true, true, true, true⟩

def PExplicit.isEmpty (e : PExplicit) : Bool :=
  !(e.validation || e.locale || e.timezone || e.max_retries || e.lean_llm)

/-- Optional parameters that tweak the parsing behaviour (types.py,
ParseOptions). -/
structure ParseOptions where
  validation : ValidationType
  locale : Option String
  timezone : Option String
  max_retries : ℤ
  lean_llm : Option LeanLLMRuntimeOptions
  explicit : PExplicit
deriving DecidableEq, Repr

/-- ParseOptions.__init__ of types.py at the typed level.  The outer Option of
each argument models the _UNSET sentinel; validation defaults to strict,
max_retries to 3.  At the typed level the only check that can fail is the
non-negativity of max_retries; _coerce_lean_runtime_options is the identity on
an already constructed LeanLLMRuntimeOptions instance or None. -/
def parseOptionsInit (validation : Option ValidationType)
    (locale timezone : Option (Option String)) (max_retries : Option ℤ)
    (lean_llm : Option (Option LeanLLMRuntimeOptions)) : Except PyErr ParseOptions :=
  match max_retries with
  | some n =>
    if n < 0 then .error (.valueError "ParseOptions.max_retries must be non-negative.")
    else
      .ok ⟨validation.getD ValidationType.strict, locale.join, timezone.join, n,
           lean_llm.join,
           ⟨validation.isSome, locale.isSome, timezone.isSome, true, lean_llm.isSome⟩⟩
  | none =>
    .ok ⟨validation.getD ValidationType.strict, locale.join, timezone.join, 3,
         lean_llm.join,
         ⟨validation.isSome, locale.isSome, timezone.isSome, false, lean_llm.isSome⟩⟩

/-- ParseratorClient._merge_options of client.py.  The first argument models
self._default_options, the second the per-request override.  The
dataclasses.replace step re-invokes ParseOptions.__init__ with every field passed
explicitly, with the explicitly overridden fields substituted and the lean_llm
update routed through _merge_lean_runtime_options. -/
def mergeOptions : Option ParseOptions → Option ParseOptions →
    Except PyErr (Option ParseOptions)
  | df, none => .ok df
  | none, some ov => .ok (some ov)
  | some df, some ov =>
    if ov.explicit.isEmpty then .ok (some df)
    else
      match (if ov.explicit.lean_llm then mergeLeanRuntime df.lean_llm ov.lean_llm
             else .ok df.lean_llm) with
      | .error e => .error e
      | .ok leanVal =>
        match parseOptionsInit
          (some (if ov.explicit.validation then ov.validation else df.validation))
          (some (if ov.explicit.locale then ov.locale else df.locale))
          (some (if ov.explicit.timezone then ov.timezone else df.timezone))
          (some (if ov.explicit.max_retries then ov.max_retries else df.max_retries))
          (some leanVal) with
        | .error e => .error e
        | .ok m => .ok (some m)

/-- Boolean validity of an optional confidence value: within the unit interval
whenever present.  This is the invariant established by the constructor checks
of LeanLLMRuntimeOptions.__init__. -/
def optQUnit : Option ℚ → Bool
  | none => true
  | some q => decide (0 ≤ q ∧ q ≤ 1)

/-- Boolean validity of an optional count: non-negative whenever present. -/
def optZNonneg : Option ℤ → Bool
  | none => true
  | some n => decide (0 ≤ n)

/-- Invariants holding for every LeanLLMRuntimeOptions value the constructor of
types.py can actually produce. -/
def LeanLLMRuntimeOptions.validB (o : LeanLLMRuntimeOptions) : Bool :=
  optQUnit o.default_confidence && optZNonneg o.max_input_characters &&
  optQUnit o.plan_confidence_gate && optZNonneg o.max_invocations_per_parse &&
  optZNonneg o.max_tokens_per_parse

/-- Invariants holding for every ParseOptions value the constructor of types.py
can actually produce. -/
def ParseOptions.validB (o : ParseOptions) : Bool :=
  decide (0 ≤ o.max_retries) &&
  (match o.lean_llm with
   | none => true
   | some l => l.validB)

/-- Wire values appearing in the options payload. -/
inductive WireVal
  | b (x : Bool)
  | q (x : ℚ)
  | i (x : ℤ)
deriving DecidableEq, Repr

/-- One payload entry of LeanLLMRuntimeOptions.to_payload: included when the
value is non-None or the field was explicitly set; an included None becomes a
JSON null (inner none). -/
def leanEntry {α : Type} (present : Bool) (key : String) (v : Option α)
    (f : α → WireVal) : List (String × Option WireVal) :=
  if present then [(key, v.map f)] else []

/-- LeanLLMRuntimeOptions.to_payload of types.py, in the field_map order of the
source. -/
def LeanLLMRuntimeOptions.toPayload (o : LeanLLMRuntimeOptions) :
    List (String × Option WireVal) :=
  leanEntry (o.disabled.isSome || o.explicit.disabled) "disabled" o.disabled .b ++
  leanEntry (o.allow_optional_fields.isSome || o.explicit.allow_optional_fields)
    "allowOptionalFields" o.allow_optional_fields .b ++
  leanEntry (o.default_confidence.isSome || o.explicit.default_confidence)
    "defaultConfidence" o.default_confidence .q ++
  leanEntry (o.max_input_characters.isSome || o.explicit.max_input_characters)
    "maxInputCharacters" o.max_input_characters .i ++
  leanEntry (o.plan_confidence_gate.isSome || o.explicit.plan_confidence_gate)
    "planConfidenceGate" o.plan_confidence_gate .q ++
  leanEntry (o.max_invocations_per_parse.isSome || o.explicit.max_invocations_per_parse)
    "maxInvocationsPerParse" o.max_invocations_per_parse .i ++
  leanEntry (o.max_tokens_per_parse.isSome || o.explicit.max_tokens_per_parse)
    "maxTokensPerParse" o.max_tokens_per_parse .i

def validationWire : ValidationType → String
  | .strict => "strict"
  | .lenient => "lenient"

/-- Options sub-object of the wire payload built by
ParseratorClient._resolve_options for a merged options value.  locale and
timezone are emitted only when truthy (non-None and non-empty); the leanLLM key
is present with value some p for a non-empty nested payload p, and present with
value none (a JSON null) when merged.lean_llm is None but lean_llm is in the
merged explicit-field set. -/
structure OptionsPayload where
  validation : String
  maxRetries : ℤ
  locale : Option String
  timezone : Option String
  leanLLM : Option (Option (List (String × Option WireVal)))
deriving DecidableEq, Repr

/-- Body of ParseratorClient._resolve_options of client.py applied to a merged
(non-None) ParseOptions value. -/
def resolveOptionsPayload (m : ParseOptions) : OptionsPayload :=
  { validation := validationWire m.validation
  , maxRetries := m.max_retries
  , locale :=
      match m.locale with
      | some s => if s = "" then none else some s
      | none => none
  , timezone :=
      match m.timezone with
      | some s => if s = "" then none else some s
      | none => none
  , leanLLM :=
      match m.lean_llm with
      | some l =>
        let p := l.toPayload
        if p.isEmpty then none else some (some p)
      | none => if m.explicit.lean_llm then some none else none }

/-- Output schema: a mapping of field name to type descriptor; a none value
models a JSON null descriptor. -/
abbrev Schema := List (String × Option String)

structure SchemaIssue where
  path : String
  message : String
deriving DecidableEq, Repr

/-- Outcome of validate_schema in the utils.py variant present in the source:
a result object, not an exception. -/
structure SchemaValidationResult where
  valid : Bool
  errors : List SchemaIssue
  suggestions : List String
deriving DecidableEq, Repr

/-- Truthiness of the Python expression not s.strip(): true exactly when the
string is empty or consists solely of whitespace. -/
def pyBlank (s : String) : Bool := s.toList.all Char.isWhitespace

/-- validate_schema of utils.py.  It only reports problems in a result object:
it never raises.  The non-mapping branch is unreachable at the typed level. -/
def validateSchema (schema : Schema) : SchemaValidationResult :=
  let emptyErrs : List SchemaIssue :=
    if schema.isEmpty then [⟨"", "Schema cannot be empty"⟩] else []
  let fieldErrs : List SchemaIssue :=
    (schema.map (fun kv =>
      (if pyBlank kv.1 then [⟨kv.1, "Schema keys must be non-empty strings"⟩] else []) ++
      (if kv.2 = none then [⟨kv.1, "Schema values cannot be null"⟩] else []))).flatten
  let errs := emptyErrs ++ fieldErrs
  ⟨errs.isEmpty, errs,
   if errs.isEmpty then [] else ["Review schema keys and values for correctness"]⟩

/-- Local outcome of the validation prefix of ParseratorClient.parse_request:
either a ValidationError raised before any network activity, or control
reaching the transport call. -/
inductive LocalCheck
  | raisedValidation (msg : String)
  | proceedToTransport
deriving DecidableEq, Repr

/-- Validation prefix of ParseratorClient.parse_request in client.py:
validate_input_data raises on blank input, then validate_schema is called with
its result discarded, after which the request is built and the transport is
invoked. -/
def parseRequestLocal (input_data : String) (schema : Schema) : LocalCheck :=
  if pyBlank input_data then
    .raisedValidation "Validation failed: Input data must be a non-empty string"
  else
    let _ := validateSchema schema
    .proceedToTransport

/-- Exception classes of errors.py. -/
inductive ErrClass
  | base
  | validationErr
  | authentication
  | rateLimit
  | quotaExceeded
  | network
  | timeout
  | parseFailed
  | serviceUnavailable
deriving DecidableEq, Repr

/-- Constructor parameters of each errors.py class after self, in declaration
order, with the flag recording whether the parameter is required (has no
default). -/
def errParams : ErrClass → List (String × Bool)
  | .base => [("code", true), ("message", true), ("details", false), ("suggestion", false)]
  | .validationErr => [("message", true), ("details", false)]
  | .authentication => [("message", false)]
  | .rateLimit => [("message", false), ("retry_after", false)]
  | .quotaExceeded => [("message", false)]
  | .network => [("message", false), ("details", false)]
  | .timeout => [("timeout", true)]
  | .parseFailed => [("message", true), ("details", false)]
  | .serviceUnavailable => [("message", false)]

/-- Python call binding for an errors.py constructor invoked with posCount
positional arguments and the given keyword names: returns some diagnostic when
the call raises TypeError, none when the call binds. -/
def callErrCheck (cls : ErrClass) (posCount : ℕ) (kwNames : List String) : Option String :=
  let ps := errParams cls
  if kwNames.any (fun k => ps.all (fun p => p.1 != k)) then
    some "unexpected keyword argument"
  else if kwNames.any (fun k => (ps.take posCount).any (fun p => p.1 == k)) then
    some "multiple values for argument"
  else if ps.length < posCount then
    some "too many positional arguments"
  else if (ps.drop posCount).any (fun p => p.2 && !(kwNames.contains p.1)) then
    some "missing required positional argument"
  else
    none

/-- A typed SDK exception instance as observed by client.py: its class, its
message, and the result of getattr on request_id.  For every class defined in
the errors.py present in the source the request_id attribute is absent, so
getattr yields none; the field is kept so the model can also express error
objects of the richer variant the client code was written against. -/
structure SdkError where
  cls : ErrClass
  message : String
  request_id : Option String
deriving DecidableEq, Repr

/-- High level error codes of types.py. -/
inductive ErrorCode
  | validation_error
  | authentication_error
  | rate_limited
  | server_error
  | network_error
deriving DecidableEq, Repr

/-- _error_code_for_exception of client.py, following its isinstance chain:
note that quota errors also map to rate_limited and that timeout, parse-failed
and service-unavailable errors fall through to server_error. -/
def errorCodeForException : ErrClass → ErrorCode
  | .validationErr => .validation_error
  | .authentication => .authentication_error
  | .rateLimit => .rate_limited
  | .quotaExceeded => .rate_limited
  | .network => .network_error
  | _ => .server_error

/-- Case-sensitive first-match lookup in a header or dictionary association
list, modelling dict.get. -/
def headersGet (headers : List (String × String)) (key : String) : Option String :=
  (headers.find? (fun kv => kv.1 == key)).map (fun kv => kv.2)

/-- Error class selected by the status dispatch of
ParseratorClient._raise_api_error; successFalse models the final
details.get of the success key comparing to False. -/
def statusClass (status : ℕ) (successFalse : Bool) : ErrClass :=
  if status = 400 ∨ status = 409 ∨ status = 422 then .validationErr
  else if status = 401 ∨ status = 403 then .authentication
  else if status = 402 then .quotaExceeded
  else if status = 429 then .rateLimit
  else if status = 500 ∨ status = 502 ∨ status = 503 ∨ status = 504 then .serviceUnavailable
  else if successFalse then .parseFailed
  else .base

/-- Result of a raise site: either the intended typed SDK error, or a Python
TypeError escaping from the constructor call itself. -/
inductive RaiseOutcome
  | typeErr (cls : ErrClass) (diag : String)
  | raisedErr (e : SdkError)
deriving DecidableEq, Repr

/-- ParseratorClient._raise_api_error of client.py.  The correlation id is read
from the x-request-id response header and passed to the selected error class as
the keyword argument request_id together with one positional message argument.
No constructor in the errors.py present in the source accepts a request_id
keyword, so the call itself determines the outcome. -/
def raiseApiError (status : ℕ) (message : String)
    (headers : List (String × String)) (successFalse : Bool) : RaiseOutcome :=
  let requestId := headersGet headers "x-request-id"
  let cls := statusClass status successFalse
  match callErrCheck cls 1 ["request_id"] with
  | some diag => .typeErr cls diag
  | none => .raisedErr ⟨cls, message, requestId⟩

/-- Value stored in a ParseError details mapping. -/
inductive DetVal
  | schemaVal (s : Schema)
  | strVal (s : String)
deriving DecidableEq, Repr

/-- ParseError of types.py. -/
structure ParseError where
  code : ErrorCode
  message : String
  details : List (String × DetVal)
deriving DecidableEq, Repr

def detailsGet (d : List (String × DetVal)) (key : String) : Option DetVal :=
  (d.find? (fun kv => kv.1 == key)).map (fun kv => kv.2)

/-- ParseMetadata of types.py. -/
structure ParseMetadata where
  confidence : ℚ := 0
  processing_time_ms : ℤ := 0
  request_id : Option String := none
  raw : List (String × String) := []
deriving DecidableEq, Repr

/-- ParseResponse of types.py, with parsed data modelled as an association
list. -/
structure ParseResponse where
  success : Bool
  parsed_data : Option (List (String × String)) := none
  error_message : Option String := none
  metadata : ParseMetadata := {}
  error : Option ParseError := none
deriving DecidableEq, Repr

/-- ParseRequest of types.py. -/
structure ParseRequest where
  input_data : String
  output_schema : Schema
  instructions : Option String := none
  options : Option ParseOptions := none
deriving DecidableEq, Repr

/-- ParseratorClient._build_failure_result of client.py: the ParseError stores
the output schema of the request under the details key request, and the failure
response records the request_id attribute of the exception in its metadata. -/
def buildFailureResult (req : ParseRequest) (e : SdkError) :
    ParseResponse × ParseError :=
  let pe : ParseError :=
    ⟨errorCodeForException e.cls, e.message, [("request", DetVal.schemaVal req.output_schema)]⟩
  (⟨false, none, some e.message, ⟨0, 0, e.request_id, [("status", "failed")]⟩, some pe⟩, pe)

/-- Exception surfaced by one parse_request call inside a batch: either a typed
SDK error or any other Python exception carrying its string form. -/
inductive PyExc
  | sdk (e : SdkError)
  | other (msg : String)
deriving DecidableEq, Repr

/-- Outcome of the _execute worker closure of batch_parse: the index-tagged
completion value, or an exception escaping the worker (re-raised later by
future.result). -/
inductive ExecOutcome
  | completed (resp : ParseResponse) (failure : Option ParseError)
  | raisedTypeError (diag : String)
deriving DecidableEq, Repr

/-- The except Exception handler of _execute wraps an unexpected exception as
ParseratorError(str(exc)): one positional argument against a constructor whose
first two parameters code and message are both required, so the wrapping call
itself raises TypeError. -/
def wrapUnexpected (s : String) : Except String SdkError :=
  match callErrCheck .base 1 [] with
  | some diag => .error diag
  | none => .ok ⟨.base, s, none⟩

/-- The _execute worker closure of batch_parse in client.py, given the result
of the underlying parse_request call. -/
def executeWorker (req : ParseRequest) : Except PyExc ParseResponse → ExecOutcome
  | .ok r => .completed r none
  | .error (.sdk e) =>
    let fr := buildFailureResult req e
    .completed fr.1 (some fr.2)
  | .error (.other s) =>
    match wrapUnexpected s with
    | .error diag => .raisedTypeError diag
    | .ok e =>
      let fr := buildFailureResult req e
      .completed fr.1 (some fr.2)

/-- Per-request outcome of the typed path of _execute (success response or
converted failure response plus the optional failure entry). -/
def execOutcomeTyped (req : ParseRequest) :
    Except SdkError ParseResponse → ParseResponse × Option ParseError
  | .ok r => (r, none)
  | .error e =>
    let fr := buildFailureResult req e
    (fr.1, some fr.2)

def liftSdk (r : Except SdkError ParseResponse) : Except PyExc ParseResponse :=
  match r with
  | .ok v => .ok v
  | .error e => .error (.sdk e)

/-- Index-keyed write-back of completed futures: the results list of
batch_parse starts as None entries and each completion writes its response at
its original index, in completion order. -/
def runPool {n : ℕ} (outc : Fin n → ParseResponse) :
    List (Fin n) → (Fin n → Option ParseResponse) → Fin n → Option ParseResponse
  | [], acc => acc
  | i :: rest, acc => runPool outc rest (Function.update acc i (some (outc i)))

/-- BatchParseResponse of types.py. -/
structure BatchParseResponse where
  results : List ParseResponse
  failed : List ParseError
deriving DecidableEq, Repr

def ExecOutcome.pair : ExecOutcome → ParseResponse × Option ParseError
  | .completed r f => (r, f)
  | .raisedTypeError _ => (⟨false, none, none, {}, none⟩, none)

def ExecOutcome.isRaised : ExecOutcome → Bool
  | .completed _ _ => false
  | .raisedTypeError _ => true

/-- Parallel path of batch_parse in client.py for a non-empty request list
without halt-on-error.  order is the completion order of the worker futures.
If any worker escapes with an exception, future.result re-raises it and the
batch call fails; otherwise each completion is written back at its original
index, the results list drops the (absent) None entries, and the failure map is
read out in ascending index order. -/
def batchParallel {n : ℕ} (reqs : Fin n → ParseRequest)
    (res : Fin n → Except PyExc ParseResponse) (order : List (Fin n)) :
    Except String BatchParseResponse :=
  if _h : ∀ i : Fin n, (executeWorker (reqs i) (res i)).isRaised = false then
    let outc := fun i => (executeWorker (reqs i) (res i)).pair
    let final := runPool (fun i => (outc i).1) order (fun _ => none)
    let failedIdx := (List.finRange n).filter (fun i => ((outc i).2).isSome)
    .ok ⟨(List.finRange n).filterMap final, failedIdx.filterMap (fun i => (outc i).2)⟩
  else .error "TypeError re-raised by future.result"

/-- Loop body of _batch_parse_sequential in client.py: returns the accumulated
results, the accumulated failures, and the number of requests dispatched. -/
def seqLoop (halt : Bool) :
    List (ParseRequest × Except SdkError ParseResponse) →
    List ParseResponse × List ParseError × ℕ
  | [] => ([], [], 0)
  | (req, r) :: rest =>
    match r with
    | .ok resp =>
      let t := seqLoop halt rest
      (resp :: t.1, t.2.1, t.2.2 + 1)
    | .error e =>
      let fr := buildFailureResult req e
      if halt then ([fr.1], [fr.2], 1)
      else
        let t := seqLoop halt rest
        (fr.1 :: t.1, fr.2 :: t.2.1, t.2.2 + 1)

/-- _batch_parse_sequential of client.py.  After the loop, when halt-on-error
is set and a failure was recorded, the method raises
ParseFailedError(message, request_id=...) where the request_id value is looked
up under the requestId key of the last recorded failure details; the
constructor call is modelled with its keyword binding. -/
def batchSequentialRun (halt : Bool)
    (items : List (ParseRequest × Except SdkError ParseResponse)) :
    Except (RaiseOutcome × Option DetVal) BatchParseResponse :=
  let t := seqLoop halt items
  if halt && !t.2.1.isEmpty then
    let lastFailure := t.2.1.getLast?
    let requestIdArg :=
      match lastFailure with
      | some pe => detailsGet pe.details "requestId"
      | none => none
    .error
      (match callErrCheck .parseFailed 1 ["request_id"] with
       | some diag => .typeErr .parseFailed diag
       | none => .raisedErr ⟨.parseFailed, "Batch parse halted after encountering an error.", none⟩,
       requestIdArg)
  else .ok ⟨t.1, t.2.1⟩

/-- Python values that may be handed to BatchOptions(parallelism=...): an int,
a float, a string spelling an integer, a string int() rejects, or None. -/
inductive PyVal
  | intV (n : ℤ)
  | floatV (q : ℚ)
  | strNumV (n : ℤ)
  | strBadV (s : String)
  | noneV
deriving DecidableEq, Repr

/-- Truncation toward zero, the behaviour of int() on a Python float: for a
normalised rational this is the T-division of the numerator by the
denominator. -/
def ratTrunc (q : ℚ) : ℤ := q.num.tdiv (q.den : ℤ)

/-- int(value) as applied by BatchOptions.__post_init__: some n on success,
none when int() raises TypeError or ValueError. -/
def pyIntCoerce : PyVal → Option ℤ
  | .intV n => some n
  | .floatV q => some (ratTrunc q)
  | .strNumV n => some n
  | .strBadV _ => none
  | .noneV => none

/-- BatchOptions.__post_init__ of types.py restricted to the parallelism field:
int() coercion with TypeError re-raised on coercion failure, then a ValueError
when the coerced value is below 1, otherwise the coerced value is stored. -/
def batchOptionsParallelism (v : PyVal) : Except PyErr ℤ :=
  match pyIntCoerce v with
  | none => .error (.typeError "BatchOptions.parallelism must be an integer.")
  | some n =>
    if n < 1 then .error (.valueError "BatchOptions.parallelism must be at least 1.")
    else .ok n

/-- Pointwise equality of the seven value fields of two LeanLLMRuntimeOptions,
ignoring the explicit-field tracking record. -/
def leanFieldsEq (x y : LeanLLMRuntimeOptions) : Prop :=
  x.disabled = y.disabled ∧ x.allow_optional_fields = y.allow_optional_fields ∧
  x.default_confidence = y.default_confidence ∧
  x.max_input_characters = y.max_input_characters ∧
  x.plan_confidence_gate = y.plan_confidence_gate ∧
  x.max_invocations_per_parse = y.max_invocations_per_parse ∧
  x.max_tokens_per_parse = y.max_tokens_per_parse

/-- The rational thirteen twentieths in normalised form, so that kernel
evaluation of validity checks never needs Rat division. -/
def q1320 : ℚ := ⟨13, 20, by decide, by decide⟩

/-- Concrete client default options fixture: explicit validation, timezone,
max_retries and lean_llm, carrying a tuning block with an explicit confidence
and token budget. -/
def leanFixtureA : LeanLLMRuntimeOptions :=
  ⟨none, none, some q1320, none, none, none, some 150,
   ⟨false, false, true, false, false, false, true⟩⟩

/-- Concrete override tuning block fixture: only disabled explicitly set. -/
def leanFixtureB : LeanLLMRuntimeOptions :=
  ⟨some true, none, none, none, none, none, none,
   ⟨true, false, false, false, false, false, false⟩⟩

def optFixtureA : ParseOptions :=
  ⟨.lenient, none, some "UTC", 5, some leanFixtureA, ⟨true, false, true, true, true⟩⟩

def optFixtureB : ParseOptions :=
  ⟨.strict, some "fr-FR", none, 3, some leanFixtureB, ⟨false, true, false, false, true⟩⟩

/-- Concrete override fixture with an empty explicit-field set, as produced by
ParseOptions() with no arguments. -/
def optFixtureEmpty : ParseOptions := ⟨.strict, none, none, 3, none, PExplicit.empty⟩

/-- Concrete override fixture that explicitly sets only locale. -/
def optFixtureC : ParseOptions :=
  ⟨.strict, some "fr-FR", none, 3, none, ⟨false, true, false, false, false⟩⟩

/-- Concrete default fixture without a tuning block. -/
def optFixtureD : ParseOptions :=
  ⟨.lenient, none, some "UTC", 5, none, ⟨true, false, true, true, false⟩⟩

def reqFixture0 : ParseRequest :=
  { input_data := "alpha", output_schema := [("name", some "string")] }

def reqFixture1 : ParseRequest :=
  { input_data := "beta", output_schema := [("email", some "email")] }

def respFixture : ParseResponse :=
  { success := true, parsed_data := some [("name", "Ada")] }

def sdkErrFixture : SdkError := ⟨.validationErr, "Validation failed: bad input", none⟩

def reqsFixture : Fin 2 → ParseRequest := fun i => if i = 0 then reqFixture0 else reqFixture1

def resFixture : Fin 2 → Except SdkError ParseResponse :=
  fun i => if i = 0 then .ok respFixture else .error sdkErrFixture

/-- A typed SDK error carrying a correlation id, as produced by the error
variant the client code was written against. -/
def sdkErrWithId : SdkError := ⟨.validationErr, "Validation failed: bad", some "req_1"⟩

/-- Two-request halting batch fixture: the first request fails with a typed
error whose correlation id is req_1, the second would succeed. -/
def haltItemsFixture : List (ParseRequest × Except SdkError ParseResponse) :=
  [(reqFixture0, .error sdkErrWithId), (reqFixture1, .ok respFixture)]

/-- The rational five halves (two point five) in normalised form. -/
def q52 : ℚ := ⟨5, 2, by decide, by decide⟩

theorem lean_validB_split (o : LeanLLMRuntimeOptions) (h : o.validB = true) :
    optQUnit o.default_confidence = true ∧ optZNonneg o.max_input_characters = true ∧
    optQUnit o.plan_confidence_gate = true ∧
    optZNonneg o.max_invocations_per_parse = true ∧
    optZNonneg o.max_tokens_per_parse = true := by
  simp only [LeanLLMRuntimeOptions.validB, Bool.and_eq_true] at h
  exact ⟨h.1.1.1.1, h.1.1.1.2, h.1.1.2, h.1.2, h.2⟩

theorem parse_validB_split (o : ParseOptions) (h : o.validB = true) :
    0 ≤ o.max_retries ∧ ∀ l, o.lean_llm = some l → l.validB = true := by
  simp only [ParseOptions.validB, Bool.and_eq_true, decide_eq_true_eq] at h
  refine ⟨h.1, fun l hl => ?_⟩
  have h2 := h.2
  rw [hl] at h2
  exact h2

theorem checkUnit01_eq (name : String) (x : Option (Option ℚ))
    (h : optQUnit x.join = true) : checkUnit01 name x = .ok x.join := by
  cases x with
  | none => rfl
  | some y =>
    cases y with
    | none => rfl
    | some q =>
      have hq : 0 ≤ q ∧ q ≤ 1 := by simpa [optQUnit, Option.join] using h
      show checkUnit01 name (some (some q)) = .ok (some q)
      simp only [checkUnit01]
      rw [if_neg (by push_neg; exact hq)]

theorem checkNonneg_eq (name : String) (x : Option (Option ℤ))
    (h : optZNonneg x.join = true) : checkNonneg name x = .ok x.join := by
  cases x with
  | none => rfl
  | some y =>
    cases y with
    | none => rfl
    | some n =>
      have hn : 0 ≤ n := by simpa [optZNonneg, Option.join] using h
      show checkNonneg name (some (some n)) = .ok (some n)
      simp only [checkNonneg]
      rw [if_neg (not_lt.mpr hn)]

theorem leanInitAll_ok (d a : Option Bool) (dc : Option ℚ) (mic : Option ℤ)
    (pcg : Option ℚ) (mip mtp : Option ℤ)
    (h1 : optQUnit dc = true) (h2 : optZNonneg mic = true) (h3 : optQUnit pcg = true)
    (h4 : optZNonneg mip = true) (h5 : optZNonneg mtp = true) :
    leanInitAll d a dc mic pcg mip mtp = .ok ⟨d, a, dc, mic, pcg, mip, mtp, LExplicit.all⟩ := by
  unfold leanInitAll leanInit
  rw [checkUnit01_eq _ _ (by simpa using h1), checkNonneg_eq _ _ (by simpa using h2),
      checkUnit01_eq _ _ (by simpa using h3), checkNonneg_eq _ _ (by simpa using h4),
      checkNonneg_eq _ _ (by simpa using h5)]
  rfl

theorem join_provideIf_or {α : Type} (v : Option α) (b : Bool) :
    (provideIf (v.isSome || b) v).join = v := by
  cases v <;> cases b <;> rfl

theorem isSome_provideIf {α : Type} (c : Bool) (v : α) :
    (provideIf c v).isSome = c := by
  cases c <;> rfl

theorem leanCopy_ok (o : LeanLLMRuntimeOptions) (hv : o.validB = true) :
    leanCopy o = .ok { o with explicit :=
      ⟨o.disabled.isSome || o.explicit.disabled,
       o.allow_optional_fields.isSome || o.explicit.allow_optional_fields,
       o.default_confidence.isSome || o.explicit.default_confidence,
       o.max_input_characters.isSome || o.explicit.max_input_characters,
       o.plan_confidence_gate.isSome || o.explicit.plan_confidence_gate,
       o.max_invocations_per_parse.isSome || o.explicit.max_invocations_per_parse,
       o.max_tokens_per_parse.isSome || o.explicit.max_tokens_per_parse⟩ } := by
  obtain ⟨h1, h2, h3, h4, h5⟩ := lean_validB_split o hv
  unfold leanCopy leanInit
  rw [checkUnit01_eq _ _ (by rw [join_provideIf_or]; exact h1),
      checkNonneg_eq _ _ (by rw [join_provideIf_or]; exact h2),
      checkUnit01_eq _ _ (by rw [join_provideIf_or]; exact h3),
      checkNonneg_eq _ _ (by rw [join_provideIf_or]; exact h4),
      checkNonneg_eq _ _ (by rw [join_provideIf_or]; exact h5)]
  simp only [join_provideIf_or, isSome_provideIf]

theorem mergeLeanRuntime_none (b : Option LeanLLMRuntimeOptions) :
    mergeLeanRuntime b none = .ok none := by
  cases b <;> rfl

theorem mergeLeanRuntime_copy (ov : LeanLLMRuntimeOptions) (hv : ov.validB = true) :
    mergeLeanRuntime none (some ov) = .ok (some { ov with explicit :=
      ⟨ov.disabled.isSome || ov.explicit.disabled,
       ov.allow_optional_fields.isSome || ov.explicit.allow_optional_fields,
       ov.default_confidence.isSome || ov.explicit.default_confidence,
       ov.max_input_characters.isSome || ov.explicit.max_input_characters,
       ov.plan_confidence_gate.isSome || ov.explicit.plan_confidence_gate,
       ov.max_invocations_per_parse.isSome || ov.explicit.max_invocations_per_parse,
       ov.max_tokens_per_parse.isSome || ov.explicit.max_tokens_per_parse⟩ }) := by
  simp only [mergeLeanRuntime]
  rw [leanCopy_ok ov hv]

theorem mergeLeanRuntime_keepBase (b ov : LeanLLMRuntimeOptions)
    (h : ov.explicit.isEmpty = true) :
    mergeLeanRuntime (some b) (some ov) = .ok (some b) := by
  simp [mergeLeanRuntime, h]

theorem optQUnit_ite (c : Bool) (x y : Option ℚ) (hx : optQUnit x = true)
    (hy : optQUnit y = true) : optQUnit (if c then x else y) = true := by
  cases c <;> simpa

theorem optZNonneg_ite (c : Bool) (x y : Option ℤ) (hx : optZNonneg x = true)
    (hy : optZNonneg y = true) : optZNonneg (if c then x else y) = true := by
  cases c <;> simpa

theorem mergeLeanRuntime_merge (b ov : LeanLLMRuntimeOptions) (hb : b.validB = true)
    (hov : ov.validB = true) (h : ov.explicit.isEmpty = false) :
    mergeLeanRuntime (some b) (some ov) = .ok (some
      ⟨if ov.explicit.disabled then ov.disabled else b.disabled,
       if ov.explicit.allow_optional_fields then ov.allow_optional_fields else b.allow_optional_fields,
       if ov.explicit.default_confidence then ov.default_confidence else b.default_confidence,
       if ov.explicit.max_input_characters then ov.max_input_characters else b.max_input_characters,
       if ov.explicit.plan_confidence_gate then ov.plan_confidence_gate else b.plan_confidence_gate,
       if ov.explicit.max_invocations_per_parse then ov.max_invocations_per_parse else b.max_invocations_per_parse,
       if ov.explicit.max_tokens_per_parse then ov.max_tokens_per_parse else b.max_tokens_per_parse,
       LExplicit.all⟩) := by
  obtain ⟨hb1, hb2, hb3, hb4, hb5⟩ := lean_validB_split b hb
  obtain ⟨ho1, ho2, ho3, ho4, ho5⟩ := lean_validB_split ov hov
  simp only [mergeLeanRuntime, h, Bool.false_eq_true, if_false]
  rw [leanInitAll_ok _ _ _ _ _ _ _ (optQUnit_ite _ _ _ ho1 hb1)
      (optZNonneg_ite _ _ _ ho2 hb2) (optQUnit_ite _ _ _ ho3 hb3)
      (optZNonneg_ite _ _ _ ho4 hb4) (optZNonneg_ite _ _ _ ho5 hb5)]

theorem parseOptionsInit_allSome (v : ValidationType) (lc tz : Option String)
    (mr : ℤ) (ll : Option LeanLLMRuntimeOptions) (h : 0 ≤ mr) :
    parseOptionsInit (some v) (some lc) (some tz) (some mr) (some ll) =
      .ok ⟨v, lc, tz, mr, ll, PExplicit.all⟩ := by
  simp only [parseOptionsInit]
  rw [if_neg (not_lt.mpr h)]
  rfl

theorem mergeOptions_explicitNonempty (df ov : ParseOptions) (hdf : df.validB = true)
    (hov : ov.validB = true) (hne : ov.explicit.isEmpty = false) :
    ∃ ll, (if ov.explicit.lean_llm then mergeLeanRuntime df.lean_llm ov.lean_llm
           else Except.ok df.lean_llm) = .ok ll ∧
      mergeOptions (some df) (some ov) = .ok (some
        ⟨(if ov.explicit.validation then ov.validation else df.validation),
         (if ov.explicit.locale then ov.locale else df.locale),
         (if ov.explicit.timezone then ov.timezone else df.timezone),
         (if ov.explicit.max_retries then ov.max_retries else df.max_retries),
         ll, PExplicit.all⟩) := by
  obtain ⟨hdfr, hdfl⟩ := parse_validB_split df hdf
  obtain ⟨hovr, hovl⟩ := parse_validB_split ov hov
  have hll : ∃ ll, (if ov.explicit.lean_llm then mergeLeanRuntime df.lean_llm ov.lean_llm
      else Except.ok df.lean_llm) = .ok ll := by
    cases hfl : ov.explicit.lean_llm with
    | false => exact ⟨df.lean_llm, by simp⟩
    | true =>
      simp only [if_true]
      cases hbo : ov.lean_llm with
      | none => exact ⟨none, mergeLeanRuntime_none df.lean_llm⟩
      | some lov =>
        cases hba : df.lean_llm with
        | none => exact ⟨_, mergeLeanRuntime_copy lov (hovl lov hbo)⟩
        | some lb =>
          cases hie : lov.explicit.isEmpty with
          | true => exact ⟨some lb, mergeLeanRuntime_keepBase lb lov hie⟩
          | false => exact ⟨_, mergeLeanRuntime_merge lb lov (hdfl lb hba) (hovl lov hbo) hie⟩
  obtain ⟨ll, hll⟩ := hll
  refine ⟨ll, hll, ?_⟩
  have hmr : 0 ≤ (if ov.explicit.max_retries then ov.max_retries else df.max_retries) := by
    split
    · exact hovr
    · exact hdfr
  simp only [mergeOptions, hne, Bool.false_eq_true, if_false]
  rw [hll]
  dsimp only
  rw [parseOptionsInit_allSome _ _ _ _ _ hmr]

/-- Claim C1: for every default ParseOptions a and every override b with a
non-empty explicit-field set, the merged options agree with b on every field in
the explicit-field set of b and with a on every other field, with the nested
lean_llm block merged recursively so that override-explicit tuning fields win
and the remaining tuning fields keep the default values (an override tuning
block that is None wins as None, and when the default has no tuning block the
override block survives field-for-field). -/
theorem merge_options_explicit_override_wins (a b : ParseOptions)
    (ha : a.validB = true) (hb : b.validB = true)
    (hne : b.explicit.isEmpty = false) :
    ∃ m, mergeOptions (some a) (some b) = .ok (some m) ∧
      (b.explicit.validation = true → m.validation = b.validation) ∧
      (b.explicit.validation = false → m.validation = a.validation) ∧
      (b.explicit.locale = true → m.locale = b.locale) ∧
      (b.explicit.locale = false → m.locale = a.locale) ∧
      (b.explicit.timezone = true → m.timezone = b.timezone) ∧
      (b.explicit.timezone = false → m.timezone = a.timezone) ∧
      (b.explicit.max_retries = true → m.max_retries = b.max_retries) ∧
      (b.explicit.max_retries = false → m.max_retries = a.max_retries) ∧
      (b.explicit.lean_llm = false → m.lean_llm = a.lean_llm) ∧
      (b.explicit.lean_llm = true → b.lean_llm = none → m.lean_llm = none) ∧
      (b.explicit.lean_llm = true → ∀ lb, b.lean_llm = some lb → a.lean_llm = none →
        ∃ lm, m.lean_llm = some lm ∧ leanFieldsEq lm lb) ∧
      (b.explicit.lean_llm = true → ∀ la lb, a.lean_llm = some la → b.lean_llm = some lb →
        lb.explicit.isEmpty = true → m.lean_llm = some la) ∧
      (b.explicit.lean_llm = true → ∀ la lb, a.lean_llm = some la → b.lean_llm = some lb →
        lb.explicit.isEmpty = false → ∃ lm, m.lean_llm = some lm ∧
          (lb.explicit.disabled = true → lm.disabled = lb.disabled) ∧
          (lb.explicit.disabled = false → lm.disabled = la.disabled) ∧
          (lb.explicit.allow_optional_fields = true →
            lm.allow_optional_fields = lb.allow_optional_fields) ∧
          (lb.explicit.allow_optional_fields = false →
            lm.allow_optional_fields = la.allow_optional_fields) ∧
          (lb.explicit.default_confidence = true →
            lm.default_confidence = lb.default_confidence) ∧
          (lb.explicit.default_confidence = false →
            lm.default_confidence = la.default_confidence) ∧
          (lb.explicit.max_input_characters = true →
            lm.max_input_characters = lb.max_input_characters) ∧
          (lb.explicit.max_input_characters = false →
            lm.max_input_characters = la.max_input_characters) ∧
          (lb.explicit.plan_confidence_gate = true →
            lm.plan_confidence_gate = lb.plan_confidence_gate) ∧
          (lb.explicit.plan_confidence_gate = false →
            lm.plan_confidence_gate = la.plan_confidence_gate) ∧
          (lb.explicit.max_invocations_per_parse = true →
            lm.max_invocations_per_parse = lb.max_invocations_per_parse) ∧
          (lb.explicit.max_invocations_per_parse = false →
            lm.max_invocations_per_parse = la.max_invocations_per_parse) ∧
          (lb.explicit.max_tokens_per_parse = true →
            lm.max_tokens_per_parse = lb.max_tokens_per_parse) ∧
          (lb.explicit.max_tokens_per_parse = false →
            lm.max_tokens_per_parse = la.max_tokens_per_parse)) := by
  obtain ⟨ll, hll, hmerge⟩ := mergeOptions_explicitNonempty a b ha hb hne
  refine ⟨_, hmerge, ?_, ?_, ?_, ?_, ?_, ?_, ?_, ?_, ?_, ?_, ?_, ?_, ?_⟩
  · intro h; simp [h]
  · intro h; simp [h]
  · intro h; simp [h]
  · intro h; simp [h]
  · intro h; simp [h]
  · intro h; simp [h]
  · intro h; simp [h]
  · intro h; simp [h]
  · intro h
    rw [h] at hll
    simp only [Bool.false_eq_true, if_false, Except.ok.injEq] at hll
    exact hll.symm
  · intro h hnone
    rw [h] at hll
    simp only [if_true] at hll
    rw [hnone, mergeLeanRuntime_none] at hll
    simpa using hll.symm
  · intro h lb hlb hanone
    rw [h] at hll
    simp only [if_true] at hll
    rw [hlb, hanone, mergeLeanRuntime_copy lb ((parse_validB_split b hb).2 lb hlb)] at hll
    simp only [Except.ok.injEq] at hll
    refine ⟨_, hll.symm, rfl, rfl, rfl, rfl, rfl, rfl, rfl⟩
  · intro h la lb hla hlb hie
    rw [h] at hll
    simp only [if_true] at hll
    rw [hla, hlb, mergeLeanRuntime_keepBase la lb hie] at hll
    simpa using hll.symm
  · intro h la lb hla hlb hie
    rw [h] at hll
    simp only [if_true] at hll
    rw [hla, hlb, mergeLeanRuntime_merge la lb ((parse_validB_split a ha).2 la hla)
        ((parse_validB_split b hb).2 lb hlb) hie] at hll
    simp only [Except.ok.injEq] at hll
    refine ⟨_, hll.symm, ?_, ?_, ?_, ?_, ?_, ?_, ?_, ?_, ?_, ?_, ?_, ?_, ?_, ?_⟩ <;>
      intro hf <;> simp [hf]

/-- Witness for claim C1 at the concrete fixtures: the override explicitly sets
locale and a tuning block with only disabled set; the merged options keep the
default validation, timezone and retry count, take the override locale, and the
merged tuning block takes disabled from the override while keeping the default
confidence and token budget. -/
theorem merge_options_explicit_override_wins_witness :
    optFixtureB.explicit.isEmpty = false ∧
    ∃ m, mergeOptions (some optFixtureA) (some optFixtureB) = .ok (some m) ∧
      m.validation = ValidationType.lenient ∧ m.locale = some "fr-FR" ∧
      m.timezone = some "UTC" ∧ m.max_retries = 5 ∧
      ∃ lm, m.lean_llm = some lm ∧ lm.disabled = some true ∧
        lm.default_confidence = some q1320 ∧ lm.max_tokens_per_parse = some 150 := by
  obtain ⟨m, hm, hva, hvb, hlca, hlcb, hta, htb, hra, hrb, hl0, hl1, hl2, hl3, hl4⟩ :=
    merge_options_explicit_override_wins optFixtureA optFixtureB
      (by decide) (by decide) (by decide)
  refine ⟨by decide, m, hm, hvb rfl, hlca rfl, htb rfl, hrb rfl, ?_⟩
  obtain ⟨lm, hlm, d1, d2, a1, a2, dc1, dc2, mi1, mi2, pg1, pg2, iv1, iv2, tk1, tk2⟩ :=
    hl4 rfl leanFixtureA leanFixtureB rfl rfl (by decide)
  exact ⟨lm, hlm, d1 rfl, dc2 rfl, tk2 rfl⟩

/-- Claim C8: merging a default ParseOptions with an override whose
explicit-field set is empty returns the default unchanged. -/
theorem merge_options_empty_override_keeps_default (a b : ParseOptions)
    (h : b.explicit.isEmpty = true) :
    mergeOptions (some a) (some b) = .ok (some a) := by
  simp [mergeOptions, h]

/-- Witness for claim C8 at concrete fixtures: an override constructed with no
arguments leaves the default untouched. -/
theorem merge_options_empty_override_keeps_default_witness :
    optFixtureEmpty.explicit.isEmpty = true ∧
    mergeOptions (some optFixtureA) (some optFixtureEmpty) = .ok (some optFixtureA) :=
  ⟨by decide,
   merge_options_empty_override_keeps_default optFixtureA optFixtureEmpty (by decide)⟩

/-- Claim C10: whenever a non-None default is merged with an override whose
explicit-field set is non-empty, the merged options record every option field
as explicit (the full field set, not the union of the two explicit sets), and
consequently the payload serialization emits a null leanLLM wire entry whenever
the merged lean_llm value is None. -/
theorem merge_options_explicit_set_saturates (a b : ParseOptions)
    (ha : a.validB = true) (hb : b.validB = true)
    (hne : b.explicit.isEmpty = false) :
    ∃ m, mergeOptions (some a) (some b) = .ok (some m) ∧ m.explicit = PExplicit.all ∧
      (m.lean_llm = none → (resolveOptionsPayload m).leanLLM = some none) := by
  obtain ⟨ll, hll, hmerge⟩ := mergeOptions_explicitNonempty a b ha hb hne
  refine ⟨_, hmerge, rfl, ?_⟩
  intro hnone
  dsimp only at hnone
  simp [resolveOptionsPayload, hnone, PExplicit.all]

/-- Witness for claim C10 at concrete fixtures: the override sets only locale
and neither side carries a tuning block, yet the merged explicit-field set is
saturated and the wire payload contains an explicit null leanLLM entry. -/
theorem merge_options_explicit_set_saturates_witness :
    optFixtureD.validB = true ∧ optFixtureC.validB = true ∧
    optFixtureC.explicit.isEmpty = false ∧
    ∃ m, mergeOptions (some optFixtureD) (some optFixtureC) = .ok (some m) ∧
      m.explicit = PExplicit.all ∧ (resolveOptionsPayload m).leanLLM = some none := by
  obtain ⟨m, hm, hexp, hcons⟩ := merge_options_explicit_set_saturates optFixtureD optFixtureC
    (by decide) (by decide) (by decide)
  have hconc : mergeOptions (some optFixtureD) (some optFixtureC) =
      .ok (some ⟨.lenient, some "fr-FR", some "UTC", 5, none, PExplicit.all⟩) := by rfl
  have hval : m = ⟨.lenient, some "fr-FR", some "UTC", 5, none, PExplicit.all⟩ :=
    Option.some.inj (Except.ok.inj (hm.symm.trans hconc))
  refine ⟨by decide, by decide, by decide, m, hm, hexp, hcons ?_⟩
  rw [hval]

theorem runPool_eq {n : ℕ} (outc : Fin n → ParseResponse) (l : List (Fin n))
    (acc : Fin n → Option ParseResponse) (j : Fin n) :
    runPool outc l acc j = if j ∈ l then some (outc j) else acc j := by
  induction l generalizing acc with
  | nil => simp [runPool]
  | cons i rest ih =>
    simp only [runPool]
    rw [ih]
    by_cases hj : j ∈ rest
    · simp [hj, List.mem_cons]
    · by_cases hji : j = i
      · subst hji
        simp [hj, Function.update_same]
      · simp [hj, hji, Function.update_noteq hji]

theorem filterMap_eq_map_of_mem {α β : Type} (l : List α) (f : α → Option β)
    (g : α → β) (h : ∀ x ∈ l, f x = some (g x)) : l.filterMap f = l.map g := by
  induction l with
  | nil => rfl
  | cons a t ih =>
    rw [List.filterMap_cons, h a (List.mem_cons_self a t), List.map_cons,
        ih (fun x hx => h x (List.mem_cons_of_mem a hx))]

theorem executeWorker_liftSdk (req : ParseRequest) (r : Except SdkError ParseResponse) :
    (executeWorker req (liftSdk r)).pair = execOutcomeTyped req r := by
  cases r <;> rfl

theorem executeWorker_liftSdk_not_raised (req : ParseRequest)
    (r : Except SdkError ParseResponse) :
    (executeWorker req (liftSdk r)).isRaised = false := by
  cases r <;> rfl

/-- Claim C2: for a non-empty batch executed without halt-on-error in which
every request either succeeds or fails with a typed SDK error, the result list
of batch_parse has exactly one entry per request, the entry at index i is the
outcome (success response or converted failure response) of request i whatever
the completion order of the worker futures, and the failed list collects the
failure entries in ascending original-index order. -/
theorem batch_parallel_preserves_input_order (n : ℕ) (_hn : 0 < n)
    (reqs : Fin n → ParseRequest) (res : Fin n → Except SdkError ParseResponse)
    (order : List (Fin n)) (hperm : order.Perm (List.finRange n)) :
    batchParallel reqs (fun i => liftSdk (res i)) order = .ok
      ⟨(List.finRange n).map (fun i => (execOutcomeTyped (reqs i) (res i)).1),
       ((List.finRange n).filter
         (fun i => ((execOutcomeTyped (reqs i) (res i)).2).isSome)).filterMap
         (fun i => (execOutcomeTyped (reqs i) (res i)).2)⟩ ∧
    ((List.finRange n).filter
      (fun i => ((execOutcomeTyped (reqs i) (res i)).2).isSome)).Pairwise (· < ·) := by
  constructor
  · unfold batchParallel
    rw [dif_pos (fun i => executeWorker_liftSdk_not_raised (reqs i) (res i))]
    simp only [executeWorker_liftSdk]
    have hres : (List.finRange n).filterMap
        (runPool (fun i => (execOutcomeTyped (reqs i) (res i)).1) order (fun _ => none)) =
        (List.finRange n).map (fun i => (execOutcomeTyped (reqs i) (res i)).1) := by
      refine filterMap_eq_map_of_mem _ _ _ (fun x _ => ?_)
      rw [runPool_eq, if_pos (hperm.mem_iff.mpr (List.mem_finRange x))]
    rw [hres]
  · exact (List.pairwise_lt_finRange n).filter _

/-- Witness for claim C2: two requests, the first succeeding and the second
failing with a typed validation error, with the workers completing in reversed
order; the results keep the input order and the failed list holds the converted
second failure. -/
theorem batch_parallel_preserves_input_order_witness :
    ([(1 : Fin 2), 0].Perm (List.finRange 2)) ∧
    batchParallel reqsFixture (fun i => liftSdk (resFixture i)) [1, 0] = .ok
      ⟨[respFixture, (buildFailureResult reqFixture1 sdkErrFixture).1],
       [(buildFailureResult reqFixture1 sdkErrFixture).2]⟩ := by
  have H := batch_parallel_preserves_input_order 2 (by decide) reqsFixture resFixture
    [1, 0] (by decide)
  refine ⟨by decide, ?_⟩
  rw [H.1]
  rfl

/-- Claim C3 (code bug evaluation): the status dispatch of _raise_api_error
selects the error class exactly as the claim states, but every branch then
invokes the selected constructor with a request_id keyword argument that no
constructor in the errors.py of the source accepts, so the call raises
TypeError instead of the typed error; in particular no raised error can carry
the correlation id taken from the x-request-id header. -/
theorem raise_api_error_taxonomy_kwarg_bug :
    (statusClass 400 false = .validationErr ∧ statusClass 409 false = .validationErr ∧
     statusClass 422 false = .validationErr ∧ statusClass 401 false = .authentication ∧
     statusClass 403 false = .authentication ∧ statusClass 402 false = .quotaExceeded ∧
     statusClass 429 false = .rateLimit ∧ statusClass 500 false = .serviceUnavailable ∧
     statusClass 502 false = .serviceUnavailable ∧ statusClass 503 false = .serviceUnavailable ∧
     statusClass 504 false = .serviceUnavailable) ∧
    raiseApiError 400 "Invalid request body" [("x-request-id", "req_9")] false =
      .typeErr .validationErr "unexpected keyword argument" ∧
    raiseApiError 401 "Bad key" [("x-request-id", "req_9")] false =
      .typeErr .authentication "unexpected keyword argument" ∧
    raiseApiError 500 "Server down" [] false =
      .typeErr .serviceUnavailable "unexpected keyword argument" := by
  exact ⟨⟨rfl, rfl, rfl, rfl, rfl, rfl, rfl, rfl, rfl, rfl, rfl⟩, rfl, rfl, rfl⟩

/-- Claim C7 (code bug evaluation): on a 429 response whose headers carry
retry-after 2, the raise site never reads that header (removing it does not
change the outcome) and the constructor call raises TypeError because of the
request_id keyword, even though the RateLimitError constructor does have a
retry_after parameter that _raise_api_error simply never supplies. -/
theorem rate_limit_retry_after_ignored_bug :
    raiseApiError 429 "Rate limit exceeded"
      [("retry-after", "2"), ("x-request-id", "req_7")] false =
      .typeErr .rateLimit "unexpected keyword argument" ∧
    raiseApiError 429 "Rate limit exceeded" [("x-request-id", "req_7")] false =
      raiseApiError 429 "Rate limit exceeded"
        [("retry-after", "2"), ("x-request-id", "req_7")] false ∧
    (errParams .rateLimit).contains ("retry_after", false) = true := by
  exact ⟨rfl, rfl, rfl⟩

/-- Claim C5 (code bug evaluation): validate_schema flags an empty schema
mapping as invalid, but parse_request discards that result, so a parse call
with non-blank input and an empty schema proceeds to the transport instead of
raising a validation error before network activity. -/
theorem empty_schema_reaches_transport_bug :
    (validateSchema []).valid = false ∧
    (validateSchema []).errors = [⟨"", "Schema cannot be empty"⟩] ∧
    parseRequestLocal "John Smith" [] = .proceedToTransport ∧
    parseRequestLocal "   " [("name", some "string")] =
      .raisedValidation "Validation failed: Input data must be a non-empty string" := by
  refine ⟨rfl, rfl, ?_, ?_⟩ <;> decide

/-- Claim C6 (code bug evaluation): a typed SDK error raised inside a batch
worker is converted into a failure entry, but an unexpected exception hits the
defensive except handler whose wrapping call ParseratorError(str(exc)) lacks
the required message argument, so the worker escapes with TypeError and the
batch call itself raises when collecting that future. -/
theorem batch_unexpected_exception_bug :
    executeWorker reqFixture0 (.error (.sdk sdkErrFixture)) =
      .completed (buildFailureResult reqFixture0 sdkErrFixture).1
        (some (buildFailureResult reqFixture0 sdkErrFixture).2) ∧
    executeWorker reqFixture0 (.error (.other "KeyError: boom")) =
      .raisedTypeError "missing required positional argument" ∧
    batchParallel (fun _ : Fin 1 => reqFixture0)
      (fun _ => .error (.other "KeyError: boom")) [0] =
      .error "TypeError re-raised by future.result" := by
  refine ⟨rfl, rfl, ?_⟩
  rw [batchParallel, dif_neg]
  intro h
  exact absurd (h 0) (by decide)

/-- Claim C4 (code bug evaluation): with halt-on-error set and the first of two
requests failing, the sequential loop dispatches only one request and records
exactly one result, but the batch-halted raise passes request_id as a keyword
that ParseFailedError does not accept, so a TypeError escapes instead of the
batch-halted error; moreover the correlation id value it would have passed is
None, because _build_failure_result stores only the request schema in the
failure details, never a requestId key, even though the failing error carried
correlation id req_1. -/
theorem batch_halt_correlation_id_bug :
    (seqLoop true haltItemsFixture).2.2 = 1 ∧
    (seqLoop true haltItemsFixture).1.length = 1 ∧
    batchSequentialRun true haltItemsFixture =
      .error (.typeErr .parseFailed "unexpected keyword argument", none) ∧
    sdkErrWithId.request_id = some "req_1" ∧
    detailsGet (buildFailureResult reqFixture0 sdkErrWithId).2.details "requestId" = none := by
  exact ⟨rfl, rfl, rfl, rfl, rfl⟩

/-- Counterexample to claim C9 as stated: BatchOptions construction does not
fail for every non-integer parallelism value; the float two point five is
coerced by int() to 2 and accepted. -/
theorem batch_options_noninteger_accepted_cx :
    batchOptionsParallelism (.floatV q52) = .ok 2 ∧ q52.den ≠ 1 := by
  exact ⟨rfl, by decide⟩

/-- Claim C9 (amended): BatchOptions construction fails with TypeError exactly
when int() cannot coerce the value, fails with ValueError when the coerced
value is below 1 (in particular for every integer or float value at most 0),
and otherwise succeeds storing the coerced value, so non-integral values whose
truncation is at least 1 are accepted. -/
theorem batch_options_parallelism_amended :
    (∀ v n, pyIntCoerce v = some n → 1 ≤ n → batchOptionsParallelism v = .ok n) ∧
    (∀ v n, pyIntCoerce v = some n → n < 1 → batchOptionsParallelism v =
      .error (.valueError "BatchOptions.parallelism must be at least 1.")) ∧
    (∀ v, pyIntCoerce v = none → batchOptionsParallelism v =
      .error (.typeError "BatchOptions.parallelism must be an integer.")) ∧
    (∀ n : ℤ, n ≤ 0 → batchOptionsParallelism (.intV n) =
      .error (.valueError "BatchOptions.parallelism must be at least 1.")) ∧
    (∀ q : ℚ, q ≤ 0 → batchOptionsParallelism (.floatV q) =
      .error (.valueError "BatchOptions.parallelism must be at least 1.")) := by
  have hok : ∀ v n, pyIntCoerce v = some n → 1 ≤ n → batchOptionsParallelism v = .ok n := by
    intro v n h hn
    rw [batchOptionsParallelism, h]
    simp [not_lt.mpr hn]
  have hlow : ∀ v n, pyIntCoerce v = some n → n < 1 → batchOptionsParallelism v =
      .error (.valueError "BatchOptions.parallelism must be at least 1.") := by
    intro v n h hn
    rw [batchOptionsParallelism, h]
    simp [hn]
  refine ⟨hok, hlow, ?_, ?_, ?_⟩
  · intro v h
    rw [batchOptionsParallelism, h]
  · intro n hn
    exact hlow _ n rfl (lt_of_le_of_lt hn Int.zero_lt_one)
  · intro q hq
    have hnum : q.num ≤ 0 := Rat.num_nonpos.mpr hq
    have htr : ratTrunc q ≤ 0 := by
      rw [ratTrunc, ← neg_nonneg, ← Int.neg_tdiv]
      exact Int.tdiv_nonneg (neg_nonneg.mpr hnum) (Int.natCast_nonneg _)
    exact hlow _ _ rfl (lt_of_le_of_lt htr Int.zero_lt_one)

/-- Witness for the amended claim C9 at concrete inputs: the integer-spelling
string 3 is accepted with parallelism 3, zero is rejected with ValueError, and
a non-numeric string is rejected with TypeError. -/
theorem batch_options_parallelism_amended_witness :
    pyIntCoerce (.strNumV 3) = some 3 ∧ (1 : ℤ) ≤ 3 ∧
    batchOptionsParallelism (.strNumV 3) = .ok 3 ∧
    batchOptionsParallelism (.intV 0) =
      .error (.valueError "BatchOptions.parallelism must be at least 1.") ∧
    batchOptionsParallelism (.strBadV "workers") =
      .error (.typeError "BatchOptions.parallelism must be an integer.") := by
  have H := batch_options_parallelism_amended
  exact ⟨rfl, by decide, H.1 _ 3 rfl (by decide), H.2.2.2.1 0 (by decide), H.2.2.1 _ rfl⟩
